import Mathlib

/-!
# Vessel Tracker API — verification of the position-reconciliation core

A shallow embedding of `src/main.py` (the single-file FastAPI service that
scrapes VesselFinder, enriches the position with a MyShipTracking bounding-box
query, and merges the candidates).

Modelling conventions:

* Python floats that flow into `count_decimals` (which inspects `str(val)`)
  are modelled by `Dec`, a decimal literal: sign, integer part and the list of
  printed fractional digits.  `Dec.val : ℚ` is its exact numeric value.  This
  captures the decimal strings actually scraped/parsed (the code only feeds
  `float(...)` of short decimal strings into `count_decimals`); binary
  floating-point re-rounding of >15-digit literals is out of scope.
* Python `None` becomes `Option.none`; a fallible computation returns `Option`.
* Python strings are Lean `String`s; the character-level helpers (`strip`,
  `lower`, substring search, `re.search (\d+)`, `split`) are implemented on
  `List Char` and restricted to ASCII, which covers every string constant and
  scraped token the code manipulates.
* The network is a parameter: an adapter takes the outcome of its HTTP call
  (timeout / request error / status + body) as an explicit argument.
-/

namespace VesselTracker

/-- A decimal literal as printed: sign, integer part, and the fractional
digits exactly as they appear after the decimal point (`str(float)` always
prints a fractional part, e.g. `10.0`, so an integral value carries `[0]`). -/
structure Dec where
  neg : Bool
  ip : Nat
  fr : List Nat
  deriving DecidableEq

/-- Numerator of the exact value of a decimal literal over denominator
`10 ^ fr.length`. -/
def Dec.num (d : Dec) : Int :=
  let frNum : Nat := d.fr.foldl (fun a x => a * 10 + x) 0
  let mag : Int := (d.ip * 10 ^ d.fr.length + frNum : Nat)
  if d.neg then -mag else mag

/-- Denominator of the exact value of a decimal literal. -/
def Dec.den (d : Dec) : Nat := 10 ^ d.fr.length

/-- Exact numeric value of a decimal literal. -/
def Dec.val (d : Dec) : ℚ := (d.num : ℚ) / (d.den : ℚ)

/-- Embeds `count_decimals` (src/main.py:153-160): `None ↦ 0`; otherwise the number of
fractional digits of `str(val)` with trailing zeros stripped
(`len(s.split(".")[-1].rstrip("0"))`). -/
def count_decimals (val : Option Dec) : Nat :=
  match val with
  | none => 0
  | some d => (d.fr.reverse.dropWhile (· == 0)).length

/-- Python `str.isspace` characters relevant here (ASCII whitespace). -/
def isPySpace (c : Char) : Bool :=
  c == ' ' || c == '\t' || c == '\n' || c == '\r'

/-- Python `str.strip()` on a character list. -/
def stripChars (l : List Char) : List Char :=
  ((l.dropWhile isPySpace).reverse.dropWhile isPySpace).reverse

/-- Python `str.strip()`. -/
def pyStrip (s : String) : String := ⟨stripChars s.data⟩

/-- Python `str.lower()` (ASCII). -/
def pyLower (s : String) : String := ⟨s.data.map Char.toLower⟩

/-- Does `hay` start with `needle`? -/
def beginsWith : List Char → List Char → Bool
  | [], _ => true
  | _ :: _, [] => false
  | a :: as, b :: bs => a == b && beginsWith as bs

/-- Python `needle in hay` substring test. -/
def containsSub (needle : List Char) : List Char → Bool
  | [] => beginsWith needle []
  | c :: cs => beginsWith needle (c :: cs) || containsSub needle cs

/-- Python `needle in hay` on strings. -/
def pyIn (needle hay : String) : Bool := containsSub needle.data hay.data

/-- Numeric value of a list of ASCII digit characters. -/
def digitsToNat (l : List Char) : Nat :=
  l.foldl (fun a c => a * 10 + (c.toNat - '0'.toNat)) 0

/-- Embeds `re.search(r"(\d+)", s)`: the leftmost maximal run of digits, if any. -/
def firstNumRun : List Char → Option (List Char)
  | [] => none
  | c :: cs =>
    if c.isDigit then some (c :: cs.takeWhile Char.isDigit)
    else firstNumRun cs

/-- Embeds `get_vf_age_minutes` (src/main.py:163-178): parses VesselFinder age strings
like `"3 min ago"` or `"2 hours ago"`; empty/absent or unparsable ↦ 999. -/
def get_vf_age_minutes (age_str : Option String) : Nat :=
  match age_str with
  | none => 999
  | some s =>
    if s = "" then 999
    else
      let t := pyStrip (pyLower s)
      if pyIn "now" t || pyIn "just" t then 0
      else
        match firstNumRun t.data with
        | none => 999
        | some run =>
          let value := digitsToNat run
          if pyIn "hour" t then value * 60
          else if pyIn "day" t then value * 1440
          else value

/-- Embeds `is_valid_coordinates` (src/main.py:181-185): both present and within
latitude [-90, 90], longitude [-180, 180].  The float comparisons
`-90.0 <= lat <= 90.0` are carried out as exact integer comparisons on the
decimal literal (numerator against bound times denominator); the lemma
`is_valid_coordinates_iff` below shows this equals the bound check on the
numeric value `Dec.val`. -/
def is_valid_coordinates (lat lon : Option Dec) : Bool :=
  match lat, lon with
  | some la, some lo =>
    decide (-90 * (la.den : Int) ≤ la.num) && decide (la.num ≤ 90 * (la.den : Int)) &&
    decide (-180 * (lo.den : Int) ≤ lo.num) && decide (lo.num ≤ 180 * (lo.den : Int))
  | _, _ => false

/-- Embeds `validate_imo` (src/main.py:188-200): strip, then require 7 ASCII digits
whose weighted checksum (first six digits times weights 7..2, mod 10) equals
the seventh digit. -/
def validate_imo (imo : String) : Bool :=
  let t := pyStrip imo
  let ds := t.data
  if ds.all Char.isDigit && ds.length == 7 then
    let digits := ds.map (fun c => c.toNat - '0'.toNat)
    let checksum :=
      ((digits.take 6).zip [7, 6, 5, 4, 3, 2]).foldl
        (fun a p => a + p.1 * p.2) 0 % 10
    checksum == digits.getD 6 0
  else false

/-- The acceptance condition of claim C5 read literally on the raw request
string: the string itself is exactly seven digits and the weighted checksum
(first six digits times weights 7..2, mod 10) equals the seventh digit.
Kept separate from `validate_imo` so the two can be compared. -/
def imoClaimAccepts (t : String) : Prop :=
  t.data.length = 7 ∧ t.data.all Char.isDigit = true ∧
  (((t.data.map (fun c => c.toNat - '0'.toNat)).take 6).zip
      [7, 6, 5, 4, 3, 2]).foldl (fun a p => a + p.1 * p.2) 0 % 10 =
    (t.data.map (fun c => c.toNat - '0'.toNat)).getD 6 0

instance (t : String) : Decidable (imoClaimAccepts t) := by
  unfold imoClaimAccepts
  exact instDecidableAnd

/-! ## MyShipTracking bounding-box adapter (src/main.py:261-341) -/

/-- Digit value of an ASCII digit character. -/
def digitVal (c : Char) : Nat := c.toNat - '0'.toNat

/-- Python `float(s)` on the plain decimal literals the scraped feeds carry:
optional sign, digits, optional fractional part.  Returns `none` where
`float()` raises `ValueError`.  (Exponent forms such as `1e3` do not occur in
the tab-separated position feed and are not modelled.) -/
def parseDecCore (neg : Bool) (cs : List Char) : Option Dec :=
  let a := cs.takeWhile Char.isDigit
  let rest := cs.drop a.length
  match rest with
  | [] => if a.isEmpty then none else some ⟨neg, digitsToNat a, []⟩
  | '.' :: frac =>
    if frac.all Char.isDigit && !(a.isEmpty && frac.isEmpty) then
      some ⟨neg, digitsToNat a, frac.map digitVal⟩
    else none
  | _ => none

/-- Python `float(s)` (see `parseDecCore`); `float` tolerates surrounding
whitespace. -/
def parseDec (s : String) : Option Dec :=
  match stripChars s.data with
  | '-' :: rest => parseDecCore true rest
  | '+' :: rest => parseDecCore false rest
  | t => parseDecCore false t

/-- Python `line.split("\t")`: split on tabs, keeping empty fields. -/
def splitOnTab : List Char → List (List Char)
  | [] => [[]]
  | c :: cs =>
    if c == '\t' then [] :: splitOnTab cs
    else
      match splitOnTab cs with
      | [] => [[c]]
      | h :: t => (c :: h) :: t

/-- Python `line.split()`: split on whitespace runs, dropping empty fields;
`acc` holds the current token reversed. -/
def splitWsGo (acc : List Char) : List Char → List (List Char)
  | [] => if acc.isEmpty then [] else [acc.reverse]
  | c :: cs =>
    if isPySpace c then
      if acc.isEmpty then splitWsGo [] cs else acc.reverse :: splitWsGo [] cs
    else splitWsGo (c :: acc) cs

/-- Embeds `line.split("\t") if "\t" in line else line.split()`
(src/main.py:325). -/
def pySplitParts (l : String) : List String :=
  (if pyIn "\t" l then splitOnTab l.data else splitWsGo [] l.data).map
    (fun cs => ⟨cs⟩)

/-- The position dict built by `get_myshiptracking_pos` (src/main.py:327-332).
The keys `lat`/`lon`/`sog`/`cog` are always present; `sog`/`cog` may hold
Python `None` (modelled by `Option.none`). -/
structure MstPos where
  lat : Dec
  lon : Dec
  sog : Option Dec
  cog : Option Dec
  deriving DecidableEq

/-- Outcome of one HTTP request, passed to an adapter as an explicit
parameter: `requests.get` raising `Timeout`, raising another
`RequestException`, or returning a response with a status code and a body
already broken into lines (`response.text.splitlines()`). -/
inductive NetOutcome where
  | timeout
  | reqError
  | response (status : Nat) (bodyLines : List String)
  deriving DecidableEq

/-- Match guard of the scan loop (src/main.py:326):
`len(parts) >= 7 and parts[2].strip() == target_mmsi`. -/
def mstMatchLine (target : String) (parts : List String) : Bool :=
  decide (7 ≤ parts.length) && (pyStrip (parts.getD 2 "") == target)

/-- The dict construction for a matching line (src/main.py:327-332).
`float(parts[4])`/`float(parts[5])` may raise `ValueError`, caught at the
function level (the whole call then returns `None`): modelled by the
`Option` bind.  `parts[6]`/`parts[7]` map empty fields to `None`. -/
def mstParseLine (parts : List String) : Option MstPos := do
  let la ← parseDec (parts.getD 4 "")
  let lo ← parseDec (parts.getD 5 "")
  let sog ← if parts.getD 6 "" = "" then some none
            else (parseDec (parts.getD 6 "")).map some
  let cog ← if 7 < parts.length ∧ parts.getD 7 "" ≠ "" then
              (parseDec (parts.getD 7 "")).map some
            else some none
  some ⟨la, lo, sog, cog⟩

/-- The scan loop over `lines[2:]` (src/main.py:324-332): the first line
passing the match guard is parsed and returned; a parse failure aborts the
whole call (no further scanning), exactly as the raised `ValueError` does. -/
def mstScan (target : String) : List String → Option MstPos
  | [] => none
  | l :: ls =>
    let parts := pySplitParts l
    if mstMatchLine target parts then mstParseLine parts
    else mstScan target ls

/-- Embeds `get_myshiptracking_pos` (src/main.py:261-341).  Absent center
coordinates short-circuit to `None`; a timeout or request error is caught
and yields `None`; a non-200 status yields `None`; fewer than three
non-empty lines yield `None`; otherwise the body is scanned for the target
MMSI.  (The `pad` argument only shapes the outbound bounding-box query,
which is part of the `net` outcome, and the `float(center_*)` conversions
cannot fail on the already-float centers.) -/
def get_myshiptracking_pos (mmsi : String) (center_lat center_lon : Option Dec)
    (net : NetOutcome) : Option MstPos :=
  match center_lat, center_lon with
  | some _, some _ =>
    match net with
    | .timeout => none
    | .reqError => none
    | .response status body =>
      if status ≠ 200 then none
      else
        let lines := (body.map pyStrip).filter (fun l => l ≠ "")
        if lines.length < 3 then none
        else mstScan (pyStrip mmsi) (lines.drop 2)
  | _, _ => none

/-! ## Position selection (src/main.py:434-462) -/

/-- The position-related outputs of the selection block: `selected_source`,
`lat`, `lon` and the (possibly overwritten) `sog`, `cog`. -/
structure Selected where
  source : String
  lat : Option Dec
  lon : Option Dec
  sog : Option Dec
  cog : Option Dec
  deriving DecidableEq

/-- The `--- Select Best Position Source ---` block (src/main.py:434-462),
with `mst_valid`/`vf_valid` and the `if mst_valid and vf_valid / elif
mst_valid / elif vf_valid / else` chain written as a match on `mst_data`
followed by the same boolean tests.  In the two MyShipTracking branches the
Python reads `mst_data.get("sog", sog)` resp. `mst_data.get("sog")`: the
dict always contains the `"sog"`/`"cog"` keys (possibly holding `None`), so
`.get` returns the stored value and the fallback default is never consulted
— both branches therefore take `m.sog`/`m.cog` as written here. -/
def selectBest (vf_lat vf_lon : Option Dec) (sog cog : Option Dec)
    (mst_data : Option MstPos) (vf_age : Nat) : Selected :=
  match mst_data with
  | some m =>
    if is_valid_coordinates (some m.lat) (some m.lon) then
      -- mst_valid true
      if is_valid_coordinates vf_lat vf_lon then
        -- `if mst_valid and vf_valid:`
        let vf_precision := count_decimals vf_lat + count_decimals vf_lon
        let mst_precision :=
          count_decimals (some m.lat) + count_decimals (some m.lon)
        if vf_age > 60 || mst_precision > vf_precision then
          ⟨"myshiptracking", some m.lat, some m.lon, m.sog, m.cog⟩
        else
          ⟨"vesselfinder", vf_lat, vf_lon, sog, cog⟩
      else
        -- `elif mst_valid:`
        ⟨"myshiptracking", some m.lat, some m.lon, m.sog, m.cog⟩
    else if is_valid_coordinates vf_lat vf_lon then
      -- `elif vf_valid:`
      ⟨"vesselfinder", vf_lat, vf_lon, sog, cog⟩
    else
      ⟨"none", none, none, sog, cog⟩
  | none =>
    if is_valid_coordinates vf_lat vf_lon then
      ⟨"vesselfinder", vf_lat, vf_lon, sog, cog⟩
    else
      ⟨"none", none, none, sog, cog⟩

/-! ## VesselFinder scrape and endpoint (src/main.py:348-543) -/

/-- The values extracted from a successfully fetched VesselFinder detail page
(src/main.py:377-425), taken at the HTML-parsing boundary the spec excludes:
`name` (falls back to `"IMO …"` server-side), `destination` (`""` when the
element is missing), the `data-title` age string, the extracted MMSI, the
parsed `djson` position blob (`vf_lat`, `vf_lon`, `sog`, `cog`, each `None`
when missing or unparsable), and the static table fields. -/
structure VfPage where
  name : String
  destination : String
  lastPosUtc : Option String
  mmsi : Option String
  vf_lat : Option Dec
  vf_lon : Option Dec
  sog : Option Dec
  cog : Option Dec
  flag : Option String
  shipType : String
  draught : String
  deadweight : Option String
  grossTonnage : Option String
  yearOfBuild : Option String
  lengthOverall : Option String
  beam : Option String
  deriving DecidableEq

/-- Outcome of the VesselFinder page fetch (src/main.py:360-375). -/
inductive VfFetch where
  | timeout
  | reqError (msg : String)
  | http (status : Nat) (page : VfPage)
  deriving DecidableEq

/-- The dict returned by `scrape_vesselfinder`, as consumed by
`VesselResponse` (src/main.py:120-141, 469-489). -/
structure VesselOut where
  found : Bool
  imo : String
  vessel_name : Option String
  mmsi : Option String
  ship_type : Option String
  flag : Option String
  lat : Option Dec
  lon : Option Dec
  sog : Option Dec
  cog : Option Dec
  destination : Option String
  last_pos_utc : Option String
  ais_source : String
  draught_m : Option String
  deadweight_t : Option String
  gross_tonnage : Option String
  year_of_build : Option String
  length_overall_m : Option String
  beam_m : Option String
  error : Option String
  deriving DecidableEq

/-- An early-return failure dict `{"found": False, "imo": imo, "error": …}`
(src/main.py:364, 367, 371, 375); every other `VesselResponse` field keeps
its model default (`None`, `ais_source="none"`). -/
def notFoundResult (imo msg : String) : VesselOut :=
  { found := false, imo := imo, vessel_name := none, mmsi := none,
    ship_type := none, flag := none, lat := none, lon := none, sog := none,
    cog := none, destination := none, last_pos_utc := none,
    ais_source := "none", draught_m := none, deadweight_t := none,
    gross_tonnage := none, year_of_build := none, length_overall_m := none,
    beam_m := none, error := some msg }

/-- The MyShipTracking enrichment guard (src/main.py:428-432):
`if mmsi and vf_lat is not None and vf_lon is not None:`. -/
def mstOf (page : VfPage) (net : NetOutcome) : Option MstPos :=
  match page.mmsi with
  | some m =>
    if m ≠ "" ∧ page.vf_lat.isSome ∧ page.vf_lon.isSome then
      get_myshiptracking_pos m page.vf_lat page.vf_lon net
    else none
  | none => none

/-- The successful-fetch tail of `scrape_vesselfinder` (src/main.py:427-489):
enrich with MyShipTracking, select the best position, and build the result
dict. -/
def scrapeOk (imo : String) (page : VfPage) (net : NetOutcome) : VesselOut :=
  let mst_data := mstOf page net
  let vf_age := get_vf_age_minutes page.lastPosUtc
  let sel := selectBest page.vf_lat page.vf_lon page.sog page.cog mst_data vf_age
  { found := true, imo := imo, vessel_name := some page.name,
    mmsi := page.mmsi, ship_type := some page.shipType, flag := page.flag,
    lat := sel.lat, lon := sel.lon, sog := sel.sog, cog := sel.cog,
    destination := some page.destination, last_pos_utc := page.lastPosUtc,
    ais_source := sel.source, draught_m := some page.draught,
    deadweight_t := page.deadweight, gross_tonnage := page.grossTonnage,
    year_of_build := page.yearOfBuild,
    length_overall_m := page.lengthOverall, beam_m := page.beam,
    error := none }

/-- Embeds `scrape_vesselfinder` (src/main.py:348-489): the VesselFinder fetch
outcome and the MyShipTracking outcome are explicit parameters. -/
def scrape_vesselfinder (imo : String) (vf : VfFetch) (net : NetOutcome) :
    VesselOut :=
  match vf with
  | .timeout => notFoundResult imo "Request timeout"
  | .reqError msg => notFoundResult imo msg
  | .http status page =>
    if status = 404 then notFoundResult imo "Vessel not found"
    else if status ≠ 200 then
      notFoundResult imo ("HTTP " ++ toString status)
    else scrapeOk imo page net

/-- Result of the `/vessel-full/{imo}` handler: either an `HTTPException`
with a status code and detail, or the response payload. -/
inductive ApiResult where
  | httpError (status : Nat) (detail : String)
  | ok (v : VesselOut)
  deriving DecidableEq

/-- Embeds `vessel_full` (src/main.py:511-543): validate the IMO (400 before any
network call), scrape, 404 on not-found, otherwise return the payload. -/
def vessel_full (imo : String) (vf : VfFetch) (net : NetOutcome) : ApiResult :=
  if validate_imo imo then
    let data := scrape_vesselfinder imo vf net
    if data.found then .ok data
    else .httpError 404 (data.error.getD "Vessel not found")
  else
    .httpError 400 "Invalid IMO number. Must be 7 digits with valid checksum."

/-! ## Concrete sample inputs used by witnesses and evaluations -/

/-- A scraped page whose primary position is valid (10.1, 20.1) with SOG and
COG present, age string `"3 min ago"`, and a known MMSI. -/
def samplePageSog : VfPage :=
  { name := "TEST VESSEL", destination := "ROTTERDAM",
    lastPosUtc := some "3 min ago", mmsi := some "123456789",
    vf_lat := some ⟨false, 10, [1]⟩, vf_lon := some ⟨false, 20, [1]⟩,
    sog := some ⟨false, 12, [3]⟩, cog := some ⟨false, 180, []⟩,
    flag := some "Panama", shipType := "Cargo", draught := "7.5 m",
    deadweight := some "50000", grossTonnage := some "30000",
    yearOfBuild := some "2010", lengthOverall := some "200",
    beam := some "32" }

/-- An MST response body whose third line matches MMSI 123456789 with
position (10.12, 20.15), an empty SOG field and COG 45.0. -/
def sampleMstBody : List String :=
  ["h1", "h2", "a\tb\t123456789\tc\t10.12\t20.15\t\t45.0"]

/-- A scraped page whose primary position (95.0, 20.0) is out of latitude
bounds. -/
def samplePageInvalid : VfPage :=
  { name := "TEST VESSEL", destination := "", lastPosUtc := none,
    mmsi := some "123456789", vf_lat := some ⟨false, 95, [0]⟩,
    vf_lon := some ⟨false, 20, [0]⟩, sog := none, cog := none,
    flag := none, shipType := "", draught := "", deadweight := none,
    grossTonnage := none, yearOfBuild := none, lengthOverall := none,
    beam := none }

/-- A scraped page with a valid primary position and no MMSI. -/
def samplePageValid : VfPage :=
  { name := "TEST VESSEL", destination := "", lastPosUtc := none,
    mmsi := none, vf_lat := some ⟨false, 10, [1]⟩,
    vf_lon := some ⟨false, 20, [1]⟩, sog := none, cog := none,
    flag := none, shipType := "", draught := "", deadweight := none,
    grossTonnage := none, yearOfBuild := none, lengthOverall := none,
    beam := none }

/-- A scraped page with no primary position at all. -/
def samplePageNoPos : VfPage :=
  { name := "TEST VESSEL", destination := "", lastPosUtc := none,
    mmsi := some "123456789", vf_lat := none, vf_lon := none, sog := none,
    cog := none, flag := none, shipType := "", draught := "",
    deadweight := none, grossTonnage := none, yearOfBuild := none,
    lengthOverall := none, beam := none }

/-! ## Helper lemmas -/

lemma Dec.den_pos (d : Dec) : (0 : ℚ) < (d.den : ℚ) := by
  have : 0 < d.den := Nat.pos_pow_of_pos _ (by norm_num)
  exact_mod_cast this

/-- The integer comparisons in `is_valid_coordinates` are exactly the float
bound checks `-90.0 <= lat <= 90.0 and -180.0 <= lon <= 180.0` on the
numeric values. -/
lemma is_valid_coordinates_iff (la lo : Dec) :
    is_valid_coordinates (some la) (some lo) = true ↔
      (-90 ≤ la.val ∧ la.val ≤ 90 ∧ -180 ≤ lo.val ∧ lo.val ≤ 180) := by
  have hla := la.den_pos
  have hlo := lo.den_pos
  simp only [is_valid_coordinates, Bool.and_eq_true, decide_eq_true_eq,
    Dec.val]
  rw [le_div_iff₀ hla, div_le_iff₀ hla, le_div_iff₀ hlo, div_le_iff₀ hlo]
  constructor
  · rintro ⟨⟨⟨h1, h2⟩, h3⟩, h4⟩
    exact ⟨by exact_mod_cast h1, by exact_mod_cast h2, by exact_mod_cast h3,
      by exact_mod_cast h4⟩
  · rintro ⟨h1, h2, h3, h4⟩
    exact ⟨⟨⟨by exact_mod_cast h1, by exact_mod_cast h2⟩,
      by exact_mod_cast h3⟩, by exact_mod_cast h4⟩

/-- Valid coordinates are present coordinates. -/
lemma is_valid_some {lat lon : Option Dec}
    (h : is_valid_coordinates lat lon = true) :
    ∃ la lo, lat = some la ∧ lon = some lo := by
  cases lat with
  | none => simp [is_valid_coordinates] at h
  | some la =>
    cases lon with
    | none => simp [is_valid_coordinates] at h
    | some lo => exact ⟨la, lo, rfl, rfl⟩

/-- Exhaustive case analysis of the selection block: the result is the empty
selection, the VesselFinder candidate, or the MyShipTracking candidate, with
the validity facts of the branch taken. -/
lemma selectBest_cases (vf_lat vf_lon : Option Dec) (sog cog : Option Dec)
    (mst_data : Option MstPos) (vf_age : Nat) :
    (selectBest vf_lat vf_lon sog cog mst_data vf_age =
        ⟨"none", none, none, sog, cog⟩ ∧
      is_valid_coordinates vf_lat vf_lon = false ∧
      (∀ m, mst_data = some m →
        is_valid_coordinates (some m.lat) (some m.lon) = false)) ∨
    (selectBest vf_lat vf_lon sog cog mst_data vf_age =
        ⟨"vesselfinder", vf_lat, vf_lon, sog, cog⟩ ∧
      is_valid_coordinates vf_lat vf_lon = true) ∨
    (∃ m, mst_data = some m ∧
      selectBest vf_lat vf_lon sog cog mst_data vf_age =
        ⟨"myshiptracking", some m.lat, some m.lon, m.sog, m.cog⟩ ∧
      is_valid_coordinates (some m.lat) (some m.lon) = true) := by
  cases mst_data with
  | none =>
    cases h : is_valid_coordinates vf_lat vf_lon with
    | false => simp [selectBest, h]
    | true => simp [selectBest, h]
  | some m =>
    cases hm : is_valid_coordinates (some m.lat) (some m.lon) with
    | false =>
      cases h : is_valid_coordinates vf_lat vf_lon with
      | false => simp [selectBest, h, hm]
      | true => simp [selectBest, h, hm]
    | true =>
      cases h : is_valid_coordinates vf_lat vf_lon with
      | false => simp [selectBest, h, hm]
      | true =>
        by_cases hc : (vf_age > 60 ||
            decide (count_decimals (some m.lat) + count_decimals (some m.lon) >
              count_decimals vf_lat + count_decimals vf_lon)) = true
        · simp only [selectBest, hm, h, if_true, hc]
          simp [hm]
        · simp only [selectBest, hm, h, if_true, Bool.not_eq_true] at hc ⊢
          simp [hc]

/-- If no line of the scanned tail matches and parses, the scan is empty. -/
lemma mstScan_eq_none (target : String) (ls : List String)
    (h : ∀ l ∈ ls, mstMatchLine target (pySplitParts l) = false ∨
      mstParseLine (pySplitParts l) = none) :
    mstScan target ls = none := by
  induction ls with
  | nil => rfl
  | cons l ls ih =>
    simp only [mstScan]
    rcases h l (List.mem_cons_self l ls) with hm | hp
    · rw [hm]
      exact ih fun x hx => h x (List.mem_cons_of_mem l hx)
    · cases hm : mstMatchLine target (pySplitParts l) with
      | false => exact ih fun x hx => h x (List.mem_cons_of_mem l hx)
      | true => simpa using hp

/-- A 200-status VesselFinder fetch runs the successful-scrape tail. -/
lemma scrape200 (imo : String) (page : VfPage) (net : NetOutcome) :
    scrape_vesselfinder imo (.http 200 page) net = scrapeOk imo page net :=
  rfl

/-- The position fields of the successful-scrape result are the fields of
the selection block's output. -/
lemma scrapeOk_position (imo : String) (page : VfPage) (net : NetOutcome) :
    (scrapeOk imo page net).ais_source =
      (selectBest page.vf_lat page.vf_lon page.sog page.cog (mstOf page net)
        (get_vf_age_minutes page.lastPosUtc)).source ∧
    (scrapeOk imo page net).lat =
      (selectBest page.vf_lat page.vf_lon page.sog page.cog (mstOf page net)
        (get_vf_age_minutes page.lastPosUtc)).lat ∧
    (scrapeOk imo page net).lon =
      (selectBest page.vf_lat page.vf_lon page.sog page.cog (mstOf page net)
        (get_vf_age_minutes page.lastPosUtc)).lon :=
  ⟨rfl, rfl, rfl⟩

/-- A string all of whose characters are non-digits has no digit run. -/
lemma firstNumRun_eq_none (l : List Char)
    (h : l.all (fun c => !c.isDigit) = true) : firstNumRun l = none := by
  induction l with
  | nil => rfl
  | cons c cs ih =>
    simp only [List.all_cons, Bool.and_eq_true, Bool.not_eq_true'] at h
    simp only [firstNumRun, h.1, Bool.false_eq_true, if_false]
    exact ih h.2

/-! ## Claim theorems -/

/-- C2, counterexample: with both candidates valid, a primary age of 3
minutes (≤ 5) and a strictly more precise bounding-box candidate
(10.12/20.15, four decimal digits, against 10.1/20.1, two), the claim says
the primary is selected; the code selects the bounding-box candidate — the
selection condition `vf_age > 60 or mst_precision > vf_precision` has no
5-minute freshness floor. -/
theorem c2_counterexample :
    (selectBest (some ⟨false, 10, [1]⟩) (some ⟨false, 20, [1]⟩) none none
        (some ⟨⟨false, 10, [1, 2]⟩, ⟨false, 20, [1, 5]⟩, none, none⟩)
        3).source = "myshiptracking" ∧
    (selectBest (some ⟨false, 10, [1]⟩) (some ⟨false, 20, [1]⟩) none none
        (some ⟨⟨false, 10, [1, 2]⟩, ⟨false, 20, [1, 5]⟩, none, none⟩)
        3).source ≠ "vesselfinder" := by decide

/-- C2 (amended): when both the primary and the bounding-box candidates are
geographically valid and the primary's age is at most 60 minutes, the
bounding-box candidate is selected exactly when it is strictly more
coordinate-precise than the primary, and the primary exactly otherwise —
with no freshness floor of any kind on the primary's age. -/
theorem c2_precision_override_no_floor
    (vf_lat vf_lon sog cog : Option Dec) (m : MstPos) (vf_age : Nat)
    (hm : is_valid_coordinates (some m.lat) (some m.lon) = true)
    (hv : is_valid_coordinates vf_lat vf_lon = true)
    (hage : vf_age ≤ 60) :
    ((selectBest vf_lat vf_lon sog cog (some m) vf_age).source =
        "myshiptracking" ↔
      count_decimals vf_lat + count_decimals vf_lon <
        count_decimals (some m.lat) + count_decimals (some m.lon)) ∧
    ((selectBest vf_lat vf_lon sog cog (some m) vf_age).source =
        "vesselfinder" ↔
      count_decimals (some m.lat) + count_decimals (some m.lon) ≤
        count_decimals vf_lat + count_decimals vf_lon) := by
  have h60 : decide (vf_age > 60) = false := decide_eq_false (by omega)
  by_cases hc : count_decimals vf_lat + count_decimals vf_lon <
      count_decimals (some m.lat) + count_decimals (some m.lon)
  · have hc' : decide (count_decimals (some m.lat) + count_decimals (some m.lon) >
        count_decimals vf_lat + count_decimals vf_lon) = true :=
      decide_eq_true hc
    have he : selectBest vf_lat vf_lon sog cog (some m) vf_age =
        ⟨"myshiptracking", some m.lat, some m.lon, m.sog, m.cog⟩ := by
      simp [selectBest, hm, hv, h60, hc']
    rw [he]
    constructor
    · simp [hc]
    · simp only [Selected.mk.injEq]
      constructor
      · intro h
        simp at h
      · intro h
        omega
  · have hc' : decide (count_decimals (some m.lat) + count_decimals (some m.lon) >
        count_decimals vf_lat + count_decimals vf_lon) = false :=
      decide_eq_false (by omega)
    have he : selectBest vf_lat vf_lon sog cog (some m) vf_age =
        ⟨"vesselfinder", vf_lat, vf_lon, sog, cog⟩ := by
      simp [selectBest, hm, hv, h60, hc']
    rw [he]
    constructor
    · constructor
      · intro h
        simp at h
      · intro h
        omega
    · simp
      omega

/-- C2 witness: primary age 10 minutes, primary 10.1/20.1 (two decimal
digits), bounding-box 10.12/20.15 (four): the bounding-box candidate wins. -/
theorem c2_precision_override_no_floor_witness :
    (selectBest (some ⟨false, 10, [1]⟩) (some ⟨false, 20, [1]⟩) none none
        (some ⟨⟨false, 10, [1, 2]⟩, ⟨false, 20, [1, 5]⟩, none, none⟩)
        10).source = "myshiptracking" :=
  ((c2_precision_override_no_floor (some ⟨false, 10, [1]⟩)
      (some ⟨false, 20, [1]⟩) none none
      ⟨⟨false, 10, [1, 2]⟩, ⟨false, 20, [1, 5]⟩, none, none⟩ 10
      (by decide) (by decide) (by decide)).1).mpr (by decide)

/-- C3: a geographically valid bounding-box candidate is selected whenever
the primary candidate is absent or the primary's age exceeds 60 minutes,
whatever the candidates' precisions. -/
theorem c3_staleness_override
    (vf_lat vf_lon sog cog : Option Dec) (m : MstPos) (vf_age : Nat)
    (hm : is_valid_coordinates (some m.lat) (some m.lon) = true)
    (habs : vf_lat = none ∨ vf_lon = none ∨ 60 < vf_age) :
    selectBest vf_lat vf_lon sog cog (some m) vf_age =
      ⟨"myshiptracking", some m.lat, some m.lon, m.sog, m.cog⟩ := by
  cases hv : is_valid_coordinates vf_lat vf_lon with
  | false => simp [selectBest, hm, hv]
  | true =>
    have h60 : 60 < vf_age := by
      rcases habs with h | h | h
      · subst h
        cases vf_lon <;> simp [is_valid_coordinates] at hv
      · subst h
        cases vf_lat <;> simp [is_valid_coordinates] at hv
      · exact h
    have hd : decide (vf_age > 60) = true := decide_eq_true h60
    simp [selectBest, hm, hv, hd]

/-- C3 witness: primary age 75 minutes with six decimal digits; the
two-decimal-digit bounding-box candidate wins anyway. -/
theorem c3_staleness_override_witness :
    selectBest (some ⟨false, 10, [1, 2, 3]⟩) (some ⟨false, 20, [1, 2, 3]⟩)
      none none (some ⟨⟨false, 10, [1]⟩, ⟨false, 20, [1]⟩, none, none⟩) 75 =
      ⟨"myshiptracking", some ⟨false, 10, [1]⟩, some ⟨false, 20, [1]⟩,
        none, none⟩ :=
  c3_staleness_override (some ⟨false, 10, [1, 2, 3]⟩)
    (some ⟨false, 20, [1, 2, 3]⟩) none none
    ⟨⟨false, 10, [1]⟩, ⟨false, 20, [1]⟩, none, none⟩ 75 (by decide)
    (Or.inr (Or.inr (by omega)))

/-- C6: the age-string parser maps `"Just now"` to 0, `"3 min ago"` to 3,
`"2 hours ago"` to 120, `"1 day ago"` to 1440, an absent string to the
sentinel 999, and any string that (lowercased and stripped) contains no
digit and neither `"now"` nor `"just"` to the sentinel 999. -/
theorem c6_age_string_mapping :
    get_vf_age_minutes (some "Just now") = 0 ∧
    get_vf_age_minutes (some "3 min ago") = 3 ∧
    get_vf_age_minutes (some "2 hours ago") = 120 ∧
    get_vf_age_minutes (some "1 day ago") = 1440 ∧
    get_vf_age_minutes none = 999 ∧
    (∀ s : String,
      (pyStrip (pyLower s)).data.all (fun c => !c.isDigit) = true →
      pyIn "now" (pyStrip (pyLower s)) = false →
      pyIn "just" (pyStrip (pyLower s)) = false →
      get_vf_age_minutes (some s) = 999) := by
  refine ⟨by decide, by decide, by decide, by decide, rfl, ?_⟩
  intro s hd hnow hjust
  by_cases hs : s = ""
  · subst hs
    rfl
  · simp only [get_vf_age_minutes, if_neg hs, hnow, hjust,
      Bool.or_self, Bool.false_eq_true, if_false]
    rw [firstNumRun_eq_none _ hd]

/-- C6 witness: `"n/a"` is unparsable and maps to the sentinel 999. -/
theorem c6_age_string_mapping_witness : get_vf_age_minutes (some "n/a") = 999 :=
  c6_age_string_mapping.2.2.2.2.2 "n/a" (by decide) (by decide) (by decide)

/-- C5, counterexample: `validate_imo` strips surrounding whitespace before
checking, so it accepts `"9074729 "` (a trailing blank, eight characters),
which is not itself a string of exactly seven digits — the claimed
"if and only if" fails in the only-if direction. -/
theorem c5_counterexample :
    validate_imo "9074729 " = true ∧ ¬ imoClaimAccepts "9074729 " := by
  decide

/-- C5 (amended): validation accepts a string exactly when, after stripping
leading and trailing whitespace, it is exactly seven digits whose weighted
checksum (weights 7..2 on the first six, mod 10) equals the seventh digit;
and a request whose identifier fails validation is answered with the 400
validation error identically for every network outcome — so no network
result can influence (and no network call is needed for) the rejection. -/
theorem c5_validate_imo (imo : String) :
    (validate_imo imo = true ↔ imoClaimAccepts (pyStrip imo)) ∧
    (validate_imo imo = false →
      ∀ (vf vf2 : VfFetch) (net net2 : NetOutcome),
        vessel_full imo vf net =
          .httpError 400
            "Invalid IMO number. Must be 7 digits with valid checksum." ∧
        vessel_full imo vf net = vessel_full imo vf2 net2) := by
  constructor
  · simp only [validate_imo, imoClaimAccepts]
    by_cases h1 : (pyStrip imo).data.all Char.isDigit = true
    · by_cases h2 : (pyStrip imo).data.length = 7
      · simp [h1, h2]
      · simp [h1, h2]
    · simp only [Bool.not_eq_true] at h1
      simp [h1]
  · intro hv vf vf2 net net2
    constructor <;> simp [vessel_full, hv]

/-- C5 witness: `"1234568"` fails the checksum, is rejected with the 400
validation error, and the answer is the same for two different network
outcomes; `"9074729"` passes the checksum and is accepted. -/
theorem c5_validate_imo_witness :
    (vessel_full "1234568" .timeout .timeout =
      ApiResult.httpError 400
        "Invalid IMO number. Must be 7 digits with valid checksum." ∧
     vessel_full "1234568" .timeout .timeout =
       vessel_full "1234568" (.reqError "boom") .reqError) ∧
    validate_imo "9074729" = true :=
  ⟨(c5_validate_imo "1234568").2 (by decide) .timeout (.reqError "boom")
      .timeout .reqError,
   ((c5_validate_imo "9074729").1).mpr (by decide)⟩

/-- C4: on any successfully fetched page, a merged position is present only
with latitude in [-90, 90] and longitude in [-180, 180]; and when neither
the primary nor the fetched bounding-box candidate is within bounds, the
result has no position, carries source `"none"`, and still returns the
identity and static fields. -/
theorem c4_bounds_invariant (imo : String) (page : VfPage)
    (net : NetOutcome) :
    (∀ la lo,
      (scrape_vesselfinder imo (.http 200 page) net).lat = some la →
      (scrape_vesselfinder imo (.http 200 page) net).lon = some lo →
      -90 ≤ la.val ∧ la.val ≤ 90 ∧ -180 ≤ lo.val ∧ lo.val ≤ 180) ∧
    (is_valid_coordinates page.vf_lat page.vf_lon = false →
      (∀ m, mstOf page net = some m →
        is_valid_coordinates (some m.lat) (some m.lon) = false) →
      (scrape_vesselfinder imo (.http 200 page) net).lat = none ∧
      (scrape_vesselfinder imo (.http 200 page) net).lon = none ∧
      (scrape_vesselfinder imo (.http 200 page) net).ais_source = "none" ∧
      (scrape_vesselfinder imo (.http 200 page) net).found = true ∧
      (scrape_vesselfinder imo (.http 200 page) net).vessel_name =
        some page.name ∧
      (scrape_vesselfinder imo (.http 200 page) net).mmsi = page.mmsi ∧
      (scrape_vesselfinder imo (.http 200 page) net).ship_type =
        some page.shipType ∧
      (scrape_vesselfinder imo (.http 200 page) net).deadweight_t =
        page.deadweight ∧
      (scrape_vesselfinder imo (.http 200 page) net).gross_tonnage =
        page.grossTonnage ∧
      (scrape_vesselfinder imo (.http 200 page) net).year_of_build =
        page.yearOfBuild) := by
  obtain ⟨hsrc, hlat, hlon⟩ := scrapeOk_position imo page net
  rw [scrape200]
  constructor
  · intro la lo hla hlo
    rw [hlat] at hla
    rw [hlon] at hlo
    rcases selectBest_cases page.vf_lat page.vf_lon page.sog page.cog
        (mstOf page net) (get_vf_age_minutes page.lastPosUtc) with
      ⟨hs, _, _⟩ | ⟨hs, hvf⟩ | ⟨m, _, hs, hmv⟩
    · rw [hs] at hla
      simp at hla
    · rw [hs] at hla hlo
      simp only at hla hlo
      rw [hla, hlo] at hvf
      exact (is_valid_coordinates_iff la lo).mp hvf
    · rw [hs] at hla hlo
      simp only [Option.some.injEq] at hla hlo
      rw [← hla, ← hlo]
      exact (is_valid_coordinates_iff m.lat m.lon).mp hmv
  · intro hv hm
    rcases selectBest_cases page.vf_lat page.vf_lon page.sog page.cog
        (mstOf page net) (get_vf_age_minutes page.lastPosUtc) with
      ⟨hs, _, _⟩ | ⟨hs, hvf⟩ | ⟨m, hmm, hs, hmv⟩
    · refine ⟨?_, ?_, ?_, rfl, rfl, rfl, rfl, rfl, rfl, rfl⟩
      · rw [hlat, hs]
      · rw [hlon, hs]
      · rw [hsrc, hs]
    · rw [hvf] at hv
      simp at hv
    · rw [hm m hmm] at hmv
      simp at hmv

/-- C4 witness: with an out-of-bounds primary (95.0, 20.0) and an MST
timeout, the result has no position, source `"none"`, and is still a found
record. -/
theorem c4_bounds_invariant_witness :
    (scrape_vesselfinder "9074729" (.http 200 samplePageInvalid)
      .timeout).lat = none ∧
    (scrape_vesselfinder "9074729" (.http 200 samplePageInvalid)
      .timeout).ais_source = "none" ∧
    (scrape_vesselfinder "9074729" (.http 200 samplePageInvalid)
      .timeout).found = true := by
  have hmst : ∀ m : MstPos, mstOf samplePageInvalid .timeout = some m →
      is_valid_coordinates (some m.lat) (some m.lon) = false := by
    intro m h
    have hn : mstOf samplePageInvalid .timeout = none := by decide
    rw [hn] at h
    simp at h
  obtain h := (c4_bounds_invariant "9074729" samplePageInvalid .timeout).2
    (by decide) hmst
  exact ⟨h.1, h.2.2.1, h.2.2.2.1⟩

/-- C10: on any successfully fetched page, the source tag is one of
`"vesselfinder"`, `"myshiptracking"`, `"none"`; it is `"none"` exactly when
both position fields are absent; and when it is not `"none"` both
coordinates are present and within geographic bounds. -/
theorem c10_source_tag_invariant (imo : String) (page : VfPage)
    (net : NetOutcome) :
    ((scrape_vesselfinder imo (.http 200 page) net).ais_source =
        "vesselfinder" ∨
      (scrape_vesselfinder imo (.http 200 page) net).ais_source =
        "myshiptracking" ∨
      (scrape_vesselfinder imo (.http 200 page) net).ais_source = "none") ∧
    ((scrape_vesselfinder imo (.http 200 page) net).ais_source = "none" ↔
      ((scrape_vesselfinder imo (.http 200 page) net).lat = none ∧
        (scrape_vesselfinder imo (.http 200 page) net).lon = none)) ∧
    ((scrape_vesselfinder imo (.http 200 page) net).ais_source ≠ "none" →
      ∃ la lo,
        (scrape_vesselfinder imo (.http 200 page) net).lat = some la ∧
        (scrape_vesselfinder imo (.http 200 page) net).lon = some lo ∧
        -90 ≤ la.val ∧ la.val ≤ 90 ∧ -180 ≤ lo.val ∧ lo.val ≤ 180) := by
  obtain ⟨hsrc, hlat, hlon⟩ := scrapeOk_position imo page net
  rw [scrape200, hsrc, hlat, hlon]
  rcases selectBest_cases page.vf_lat page.vf_lon page.sog page.cog
      (mstOf page net) (get_vf_age_minutes page.lastPosUtc) with
    ⟨hs, _, _⟩ | ⟨hs, hvf⟩ | ⟨m, _, hs, hmv⟩
  · rw [hs]
    simp
  · rw [hs]
    obtain ⟨la, lo, hla, hlo⟩ := is_valid_some hvf
    rw [hla, hlo] at hvf ⊢
    have hb := (is_valid_coordinates_iff la lo).mp hvf
    refine ⟨Or.inl rfl, ?_, ?_⟩
    · simp
    · intro _
      exact ⟨la, lo, rfl, rfl, hb.1, hb.2.1, hb.2.2.1, hb.2.2.2⟩
  · rw [hs]
    have hb := (is_valid_coordinates_iff m.lat m.lon).mp hmv
    refine ⟨Or.inr (Or.inl rfl), ?_, ?_⟩
    · simp
    · intro _
      exact ⟨m.lat, m.lon, rfl, rfl, hb.1, hb.2.1, hb.2.2.1, hb.2.2.2⟩

/-- C10 witness: with a valid primary (10.1, 20.1), no MMSI and an MST
timeout, the source tag is not `"none"` and the position is present and
within bounds. -/
theorem c10_source_tag_invariant_witness :
    ∃ la lo,
      (scrape_vesselfinder "9074729" (.http 200 samplePageValid)
        .timeout).lat = some la ∧
      (scrape_vesselfinder "9074729" (.http 200 samplePageValid)
        .timeout).lon = some lo ∧
      -90 ≤ la.val ∧ la.val ≤ 90 ∧ -180 ≤ lo.val ∧ lo.val ≤ 180 :=
  (c10_source_tag_invariant "9074729" samplePageValid .timeout).2.2
    (by decide)

/-- C9: the MyShipTracking query is gated on an MMSI and a present primary
position (src/main.py:429); consequently, when the primary position is
absent, the merged result is source `"none"` with no position — never the
bounding-box source. -/
theorem c9_no_mst_without_primary (imo : String) (page : VfPage)
    (net : NetOutcome) :
    ((page.mmsi = none ∨ page.vf_lat = none ∨ page.vf_lon = none) →
      mstOf page net = none) ∧
    ((page.vf_lat = none ∨ page.vf_lon = none) →
      (scrape_vesselfinder imo (.http 200 page) net).ais_source = "none" ∧
      (scrape_vesselfinder imo (.http 200 page) net).lat = none ∧
      (scrape_vesselfinder imo (.http 200 page) net).lon = none) := by
  have hgate : (page.mmsi = none ∨ page.vf_lat = none ∨
      page.vf_lon = none) → mstOf page net = none := by
    intro h
    rcases h with h | h | h
    · simp [mstOf, h]
    · cases hm : page.mmsi with
      | none => simp [mstOf, hm]
      | some a => simp [mstOf, hm, h]
    · cases hm : page.mmsi with
      | none => simp [mstOf, hm]
      | some a => simp [mstOf, hm, h]
  refine ⟨hgate, ?_⟩
  intro h
  have hmst := hgate (Or.inr h)
  have hv : is_valid_coordinates page.vf_lat page.vf_lon = false := by
    rcases h with h | h
    · rw [h]
      cases page.vf_lon <;> simp [is_valid_coordinates]
    · rw [h]
      cases page.vf_lat <;> simp [is_valid_coordinates]
  obtain ⟨hsrc, hlat, hlon⟩ := scrapeOk_position imo page net
  rw [scrape200, hsrc, hlat, hlon, hmst]
  simp [selectBest, hv]

/-- C9 witness: a page with an MMSI but no primary position: the MST query
is skipped and the merged source is `"none"`. -/
theorem c9_no_mst_without_primary_witness :
    mstOf samplePageNoPos .timeout = none ∧
    (scrape_vesselfinder "9074729" (.http 200 samplePageNoPos)
      .timeout).ais_source = "none" :=
  ⟨(c9_no_mst_without_primary "9074729" samplePageNoPos .timeout).1
      (Or.inr (Or.inl rfl)),
   ((c9_no_mst_without_primary "9074729" samplePageNoPos .timeout).2
      (Or.inl rfl)).1⟩

/-- C8: the bounding-box adapter returns absence on timeout, request error,
non-200 status, and on a 200 body in which no line both matches the target
MMSI and parses (covering no-match and parse failure); and independently of
the MyShipTracking outcome, a successfully fetched page always yields a
found record with its identity and static fields. -/
theorem c8_secondary_failure_is_absence :
    (∀ (mmsi : String) (cla clo : Option Dec),
      get_myshiptracking_pos mmsi cla clo .timeout = none ∧
      get_myshiptracking_pos mmsi cla clo .reqError = none) ∧
    (∀ (mmsi : String) (cla clo : Option Dec) (st : Nat)
        (body : List String), st ≠ 200 →
      get_myshiptracking_pos mmsi cla clo (.response st body) = none) ∧
    (∀ (mmsi : String) (cla clo : Option Dec) (body : List String),
      (∀ l ∈ ((body.map pyStrip).filter (fun x => x ≠ "")).drop 2,
        mstMatchLine (pyStrip mmsi) (pySplitParts l) = false ∨
        mstParseLine (pySplitParts l) = none) →
      get_myshiptracking_pos mmsi cla clo (.response 200 body) = none) ∧
    (∀ (imo : String) (page : VfPage) (net : NetOutcome),
      (scrape_vesselfinder imo (.http 200 page) net).found = true ∧
      (scrape_vesselfinder imo (.http 200 page) net).vessel_name =
        some page.name ∧
      (scrape_vesselfinder imo (.http 200 page) net).mmsi = page.mmsi ∧
      (scrape_vesselfinder imo (.http 200 page) net).ship_type =
        some page.shipType ∧
      (scrape_vesselfinder imo (.http 200 page) net).deadweight_t =
        page.deadweight ∧
      (scrape_vesselfinder imo (.http 200 page) net).gross_tonnage =
        page.grossTonnage ∧
      (scrape_vesselfinder imo (.http 200 page) net).error = none) := by
  refine ⟨?_, ?_, ?_, ?_⟩
  · intro mmsi cla clo
    cases cla <;> cases clo <;> exact ⟨rfl, rfl⟩
  · intro mmsi cla clo st body hst
    cases cla <;> cases clo <;> try rfl
    simp [get_myshiptracking_pos, hst]
  · intro mmsi cla clo body hbody
    cases cla <;> cases clo <;> try rfl
    simp only [get_myshiptracking_pos]
    rw [if_neg (by simp : ¬ (200 : Nat) ≠ 200)]
    by_cases hlen :
        ((body.map pyStrip).filter (fun l => l ≠ "")).length < 3
    · rw [if_pos hlen]
    · rw [if_neg hlen]
      exact mstScan_eq_none _ _ hbody
  · intro imo page net
    exact ⟨rfl, rfl, rfl, rfl, rfl, rfl, rfl⟩

/-- C8 witness: a 500 status and a 200 body with no matching line both yield
absence, and with an MST timeout the overall scrape of a valid page is
still a found record whose static fields survive. -/
theorem c8_secondary_failure_is_absence_witness :
    get_myshiptracking_pos "123456789" (some ⟨false, 10, [1]⟩)
      (some ⟨false, 20, [1]⟩) (.response 500 ["a", "b", "c"]) = none ∧
    get_myshiptracking_pos "123456789" (some ⟨false, 10, [1]⟩)
      (some ⟨false, 20, [1]⟩) (.response 200 ["h1", "h2", "x y z"]) =
      none ∧
    (scrape_vesselfinder "9074729" (.http 200 samplePageSog)
      .timeout).found = true ∧
    (scrape_vesselfinder "9074729" (.http 200 samplePageSog)
      .timeout).vessel_name = some "TEST VESSEL" :=
  ⟨c8_secondary_failure_is_absence.2.1 "123456789" (some ⟨false, 10, [1]⟩)
      (some ⟨false, 20, [1]⟩) 500 ["a", "b", "c"] (by decide),
   c8_secondary_failure_is_absence.2.2.1 "123456789"
      (some ⟨false, 10, [1]⟩) (some ⟨false, 20, [1]⟩)
      ["h1", "h2", "x y z"] (by decide),
   (c8_secondary_failure_is_absence.2.2.2 "9074729" samplePageSog
      .timeout).1,
   (c8_secondary_failure_is_absence.2.2.2 "9074729" samplePageSog
      .timeout).2.1⟩

/-- C7: the claim says that when the winning source omits SOG, the primary's
SOG is retained.  In the code the winning MyShipTracking dict always
contains the `"sog"` key (holding `None` when the feed's field is empty),
so `mst_data.get("sog", sog)` never falls back: here the bounding-box
candidate wins with an empty SOG field, the primary's SOG 12.3 is present,
and the merged result's SOG is absent — the fallback written as the `.get`
default never fires. -/
theorem c7_sog_cleared_not_retained :
    samplePageSog.sog = some ⟨false, 12, [3]⟩ ∧
    (scrape_vesselfinder "9074729" (.http 200 samplePageSog)
      (.response 200 sampleMstBody)).ais_source = "myshiptracking" ∧
    (scrape_vesselfinder "9074729" (.http 200 samplePageSog)
      (.response 200 sampleMstBody)).sog = none ∧
    (scrape_vesselfinder "9074729" (.http 200 samplePageSog)
      (.response 200 sampleMstBody)).cog = some ⟨false, 45, [0]⟩ := by
  decide

end VesselTracker
